import Mathlib

/-!
Shallow embedding of the YouTube-screenshot MCP example server
(`src/examples/server/youtubeScreenshotServer.ts`): the per-server browser
state, the three tool handlers (`youtube-screenshot`, `cleanup-browser`,
`get-video-info`), the HTTP POST session dispatcher, and the default
output-path generation.  External effects (Playwright calls, `fs.stat`)
are modelled by an explicit `World` oracle saying which call succeeds and
what it returns; observable actions are recorded in an event trace.
-/

/-- Video quality tiers accepted by the `youtube-screenshot` tool
(the zod enum at lines 82-86 of the server source). -/
inductive Quality
  | highest
  | hd1080
  | hd720
  | large
  | medium
deriving DecidableEq

/-- The `qualityMap` table of the server source (lines 136-142): requested
tier to the on-page menu label. -/
def qualityMap : Quality → String
  | .highest => "2160p"
  | .hd1080 => "1080p"
  | .hd720 => "720p"
  | .large => "480p"
  | .medium => "360p"

/-- The string form of the enum value, as interpolated into result text. -/
def qualityName : Quality → String
  | .highest => "highest"
  | .hd1080 => "hd1080"
  | .hd720 => "hd720"
  | .large => "large"
  | .medium => "medium"

/-- State of the single page handle owned by a server instance: the
Playwright handle identity, and the URL it was last successfully
navigated to (`none` for a fresh, never-navigated page). -/
structure PageState where
  handle : Nat
  navigatedUrl : Option String
deriving DecidableEq

/-- The closure state of one `getServer()` instance: the `browser` and
`page` variables (lines 21-22 of the source), plus a counter used to
model allocation of fresh handles. -/
structure ServerState where
  browser : Option Nat
  page : Option PageState
  nextHandle : Nat
deriving DecidableEq

/-- The state of a freshly created server instance: `browser = null`,
`page = null`. -/
def initialServerState : ServerState := ⟨none, none, 0⟩

/-- Outcomes of the quality-negotiation clicks (lines 124-169): which of
the bounded waits succeeds. -/
structure NegWorld where
  settingsOk : Bool
  qualityMenuOk : Bool
  targetOk : Bool
  autoOk : Bool
  dismissOk : Bool
deriving DecidableEq

/-- Oracle for the external effects of one `youtube-screenshot` call:
which Playwright operations succeed, whether `page.$("video")` finds an
element, and what `fs.stat` reports for the written artifact. -/
structure World where
  launchOk : Bool
  newPageOk : Bool
  gotoOk : Bool
  waitVideoOk : Bool
  neg : NegWorld
  videoPresent : Bool
  elemShotOk : Bool
  pageShotOk : Bool
  statSize : Option Nat
deriving DecidableEq

/-- Observable events of a tool call: notifications sent, Playwright
actions performed, and handle closures. -/
inductive Ev
  | launch (handle : Nat)
  | newPage (handle : Nat)
  | goto (url : String)
  | waitVideo
  | clickSettings
  | clickQualityMenu
  | select (label : String)
  | dismiss
  | waitMs (ms : Nat)
  | shotElement (path : String) (format : String)
  | shotViewport (path : String) (format : String) (fullPage : Bool)
  | statFile (path : String)
  | evalInfo
  | closePage (handle : Nat)
  | closeBrowser (handle : Nat)
  | notif (level : String) (message : String)
deriving DecidableEq

/-- A `CallToolResult` with a single text content item: the only shape
this server produces. -/
structure ToolResult where
  text : String
  isError : Bool
deriving DecidableEq

/-- The `initBrowser` helper (source lines 25-45): launch a browser only
if none exists, open a page only if none exists.  Returns the outcome,
the updated state, and the trace of actions performed. -/
def initBrowser (w : World) (s : ServerState) :
    Except String Unit × ServerState × List Ev :=
  let step1 : Except String Unit × ServerState × List Ev :=
    match s.browser with
    | some _ => (Except.ok (), s, [])
    | none =>
      if w.launchOk then
        (Except.ok (),
          { s with browser := some s.nextHandle, nextHandle := s.nextHandle + 1 },
          [Ev.launch s.nextHandle])
      else (Except.error "browser launch failed", s, [])
  match step1 with
  | (Except.error e, s1, e1) => (Except.error e, s1, e1)
  | (Except.ok _, s1, e1) =>
    match s1.page with
    | some _ => (Except.ok (), s1, e1)
    | none =>
      if w.newPageOk then
        (Except.ok (),
          { s1 with page := some ⟨s1.nextHandle, none⟩, nextHandle := s1.nextHandle + 1 },
          e1 ++ [Ev.newPage s1.nextHandle])
      else (Except.error "failed to open new page", s1, e1)

/-- The `cleanup` helper (source lines 48-57): close the page handle
first, then the browser handle, nulling each variable only after its
close call returns.  `pageCloseOk`/`browserCloseOk` model whether each
`close()` call throws. -/
def cleanup (pageCloseOk browserCloseOk : Bool) (s : ServerState) :
    Except String Unit × ServerState × List Ev :=
  let step1 : Except String Unit × ServerState × List Ev :=
    match s.page with
    | none => (Except.ok (), s, [])
    | some pg =>
      if pageCloseOk then
        (Except.ok (), { s with page := none }, [Ev.closePage pg.handle])
      else (Except.error "page close failed", s, [])
  match step1 with
  | (Except.error e, s1, e1) => (Except.error e, s1, e1)
  | (Except.ok _, s1, e1) =>
    match s1.browser with
    | none => (Except.ok (), s1, e1)
    | some b =>
      if browserCloseOk then
        (Except.ok (), { s1 with browser := none }, e1 ++ [Ev.closeBrowser b])
      else (Except.error "browser close failed", s1, e1)

/-- The warning notification emitted by the outer catch of the quality
negotiation block (source lines 161-169). -/
def negWarn : Ev := Ev.notif "warning" "Could not set video quality"

/-- The quality-negotiation block of `youtube-screenshot` (source lines
124-169): settings click, quality sub-menu click, target-label click with
an inner catch falling back to the Auto entry, and a dismissing click on
the video.  Every failure path ends in the outer catch, which only emits
a warning notification; the function is total and returns only a trace. -/
def negotiate (q : Quality) (n : NegWorld) : List Ev :=
  if n.settingsOk then
    if n.qualityMenuOk then
      if n.targetOk then
        if n.dismissOk then
          [Ev.clickSettings, Ev.clickQualityMenu, Ev.select (qualityMap q), Ev.dismiss]
        else
          [Ev.clickSettings, Ev.clickQualityMenu, Ev.select (qualityMap q), negWarn]
      else if n.autoOk then
        if n.dismissOk then
          [Ev.clickSettings, Ev.clickQualityMenu, Ev.select "Auto", Ev.dismiss]
        else
          [Ev.clickSettings, Ev.clickQualityMenu, Ev.select "Auto", negWarn]
      else [Ev.clickSettings, Ev.clickQualityMenu, negWarn]
    else [Ev.clickSettings, negWarn]
  else [negWarn]

/-- Decimal digit character for `n < 10`. -/
def digitChar (n : Nat) : Char := Char.ofNat (48 + n)

/-- Two-digit zero-padded decimal rendering (as a character list). -/
def pad2 (n : Nat) : List Char := [digitChar (n / 10 % 10), digitChar (n % 10)]

/-- Three-digit zero-padded decimal rendering. -/
def pad3 (n : Nat) : List Char :=
  [digitChar (n / 100 % 10), digitChar (n / 10 % 10), digitChar (n % 10)]

/-- Four-digit zero-padded decimal rendering. -/
def pad4 (n : Nat) : List Char :=
  [digitChar (n / 1000 % 10), digitChar (n / 100 % 10), digitChar (n / 10 % 10),
   digitChar (n % 10)]

/-- Gregorian civil date (year, month, day) from a count of days since
1970-01-01, the standard era-based integer algorithm used by
`Date.prototype.toISOString`'s calendar arithmetic. -/
def civilFromDays (z : Nat) : Nat × Nat × Nat :=
  let zShift := z + 719468
  let era := zShift / 146097
  let doe := zShift % 146097
  let yoe := (doe - doe / 1460 + doe / 36524 - doe / 146096) / 365
  let y := yoe + era * 400
  let doy := doe - (365 * yoe + yoe / 4 - yoe / 100)
  let mp := (5 * doy + 2) / 153
  let d := doy - (153 * mp + 2) / 5 + 1
  let m := if mp < 10 then mp + 3 else mp - 9
  (if m ≤ 2 then y + 1 else y, m, d)

/-- The `YYYY-MM-DD` date part of the ISO-8601 timestamp. -/
def dateChars (days : Nat) : List Char :=
  pad4 (civilFromDays days).1 ++
    ('-' :: (pad2 (civilFromDays days).2.1 ++ ('-' :: pad2 (civilFromDays days).2.2)))

/-- The `HH:MM:SS.mmm` time part of the ISO-8601 timestamp, from
milliseconds since midnight. -/
def timeChars (x : Nat) : List Char :=
  pad2 (x / 3600000) ++
    (':' :: (pad2 (x / 60000 % 60) ++
      (':' :: (pad2 (x / 1000 % 60) ++ ('.' :: pad3 (x % 1000))))))

/-- `new Date(t).toISOString()` for an epoch-millisecond timestamp `t`,
as a character list: `YYYY-MM-DDTHH:MM:SS.mmmZ`. -/
def isoChars (t : Nat) : List Char :=
  dateChars (t / 86400000) ++ ('T' :: (timeChars (t % 86400000) ++ ['Z']))

/-- One step of `.replace(/[:.]/g, "-")`: a colon or dot becomes a dash,
every other character is kept. -/
def sanitizeChar (c : Char) : Char := if c == ':' || c == '.' then '-' else c

/-- The global regex replacement `.replace(/[:.]/g, "-")` (character-wise). -/
def sanitize (l : List Char) : List Char := l.map sanitizeChar

/-- The default output filename (source lines 183-184):
`youtube-screenshot-<sanitized ISO timestamp>.png`. -/
def defaultFilename (t : Nat) : String :=
  String.mk ("youtube-screenshot-".data ++ sanitize (isoChars t) ++ ".png".data)

/-- POSIX absolute-path test: the path begins with a slash. -/
def isAbsolutePath (p : String) : Bool :=
  match p.data with
  | c :: _ => c == '/'
  | [] => false

/-- `path.resolve` (source line 185), POSIX behaviour: an absolute path
is kept, a relative one is joined onto the working directory. -/
def resolvePath (cwd p : String) : String :=
  if isAbsolutePath p then p else cwd ++ "/" ++ p

/-- Arguments of the `youtube-screenshot` tool after zod parsing
(defaults already applied: `waitTime = 3000`, `quality = highest`). -/
structure Args where
  url : String
  outputPath : Option String
  waitTime : Nat
  quality : Quality
deriving DecidableEq

/-- The resolved output path of a capture: the caller-supplied path if
any, otherwise the default timestamped filename, resolved against the
working directory (source lines 183-185). -/
def fullOutputPath (a : Args) (now : Nat) (cwd : String) : String :=
  resolvePath cwd (match a.outputPath with
    | some p => p
    | none => defaultFilename now)

/-- The success text of `youtube-screenshot` (source line 220). -/
def successText (fullPath : String) (kb : Nat) (url : String) (q : Quality) : String :=
  "Screenshot successfully saved to: " ++ fullPath ++
    "\nFile size: " ++ toString kb ++ " KB\nVideo URL: " ++ url ++
    "\nQuality setting: " ++ qualityName q

/-- `Math.round(stats.size / 1024)`: round-half-up division by 1024. -/
def roundKB (size : Nat) : Nat := (size + 512) / 1024

/-- The post-negotiation tail of `youtube-screenshot` (source lines
171-226): settle wait, output-path derivation, two-tier capture (video
element region if `page.$("video")` finds one, else the viewport with
full-page capture disabled), and artifact verification via `fs.stat`.
Returns the success text or the thrown error message, plus the trace. -/
def capturePhase (a : Args) (w : World) (now : Nat) (cwd : String) :
    Except String String × List Ev :=
  let fullPath := fullOutputPath a now cwd
  let evs : List Ev :=
    [Ev.notif "info" ("Waiting " ++ toString a.waitTime ++ "ms for video to stabilize..."),
     Ev.waitMs a.waitTime,
     Ev.notif "info" ("Taking screenshot and saving to: " ++ fullPath)]
  let verify : List Ev → Except String String × List Ev := fun evs2 =>
    match w.statSize with
    | some size =>
      (Except.ok (successText fullPath (roundKB size) a.url a.quality),
        evs2 ++ [Ev.statFile fullPath])
    | none =>
      (Except.error "Screenshot file was not created: stat failed",
        evs2 ++ [Ev.statFile fullPath])
  if w.videoPresent then
    let evs := evs ++ [Ev.shotElement fullPath "png"]
    if w.elemShotOk then verify evs
    else (Except.error "element screenshot failed", evs)
  else
    let evs := evs ++ [Ev.shotViewport fullPath "png" false]
    if w.pageShotOk then verify evs
    else (Except.error "page screenshot failed", evs)

/-- An error `CallToolResult` of `youtube-screenshot` (source lines
233-243). -/
def shotErr (msg : String) : ToolResult :=
  ⟨"Failed to take YouTube screenshot: " ++ msg, true⟩

/-- The error notification of the outer catch (source lines 228-231). -/
def errNotif (msg : String) : Ev := Ev.notif "error" ("Error: " ++ msg)

/-- The whole `youtube-screenshot` handler (source lines 88-245):
initialize the browser/page, navigate, wait for the `video` selector
(fatal on timeout), run the best-effort quality negotiation, then the
capture phase; every thrown error is converted by the outer catch into
an error `CallToolResult`, leaving the browser state as it was at the
point of failure. -/
def runShot (a : Args) (w : World) (s : ServerState) (now : Nat) (cwd : String) :
    ToolResult × ServerState × List Ev :=
  let evInit : List Ev := [Ev.notif "info" "Initializing browser..."]
  match initBrowser w s with
  | (Except.error e, s1, e1) => (shotErr e, s1, evInit ++ e1 ++ [errNotif e])
  | (Except.ok _, s1, e1) =>
    match s1.page with
    | none =>
      (shotErr "Failed to initialize browser page", s1,
        evInit ++ e1 ++ [errNotif "Failed to initialize browser page"])
    | some pg =>
      let evLoad : List Ev := [Ev.notif "info" ("Loading YouTube video: " ++ a.url)]
      if w.gotoOk then
        let s2 := { s1 with page := some ⟨pg.handle, some a.url⟩ }
        if w.waitVideoOk then
          let evs3 := evInit ++ e1 ++ evLoad ++
            [Ev.goto a.url, Ev.waitVideo,
             Ev.notif "info" "Video player loaded, setting quality..."]
          let negEvs := negotiate a.quality w.neg
          match capturePhase a w now cwd with
          | (Except.ok txt, e4) => (⟨txt, false⟩, s2, evs3 ++ negEvs ++ e4)
          | (Except.error msg, e4) =>
            (shotErr msg, s2, evs3 ++ negEvs ++ e4 ++ [errNotif msg])
        else
          (shotErr "timeout waiting for video selector", s2,
            evInit ++ e1 ++ evLoad ++
              [Ev.goto a.url, errNotif "timeout waiting for video selector"])
      else
        (shotErr "navigation failed", s1,
          evInit ++ e1 ++ evLoad ++ [errNotif "navigation failed"])

/-- The `cleanup-browser` tool handler (source lines 249-284): run
`cleanup` inside a try/catch, reporting success text or an error result. -/
def cleanupTool (pageCloseOk browserCloseOk : Bool) (s : ServerState) :
    ToolResult × ServerState × List Ev :=
  let ev0 : List Ev := [Ev.notif "info" "Cleaning up browser resources..."]
  match cleanup pageCloseOk browserCloseOk s with
  | (Except.ok _, s1, e1) =>
    (⟨"Browser resources cleaned up successfully", false⟩, s1, ev0 ++ e1)
  | (Except.error e, s1, e1) =>
    (⟨"Failed to cleanup browser: " ++ e, true⟩, s1, ev0 ++ e1)

/-- What `page.evaluate` extracts for `get-video-info` (source lines
305-322), with the per-field defaults already applied for absent page
elements. -/
structure VideoInfoData where
  title : String
  channel : String
  duration : Nat
  currentTime : Nat
  videoWidth : Nat
  videoHeight : Nat
  paused : Bool
deriving DecidableEq

/-- What the evaluate callback yields on a page with no video and no
title/channel elements (e.g. a fresh, never-navigated page). -/
def blankPageInfo : VideoInfoData := ⟨"Unknown", "Unknown", 0, 0, 0, 0, true⟩

/-- The result text of `get-video-info` (source lines 328-335). -/
def videoInfoText (vi : VideoInfoData) (url : String) : String :=
  "Video Information:\nTitle: " ++ vi.title ++
    "\nChannel: " ++ vi.channel ++
    "\nDuration: " ++ toString vi.duration ++
    "s\nCurrent Time: " ++ toString vi.currentTime ++
    "s\nResolution: " ++ toString vi.videoWidth ++ "x" ++ toString vi.videoHeight ++
    "\nStatus: " ++ (if vi.paused then "Paused" else "Playing") ++
    "\nURL: " ++ url

/-- The `get-video-info` tool handler (source lines 287-353): if the
`page` variable is null, throw the precondition error (caught and turned
into an error result) without touching the browser state; otherwise
evaluate in the page.  `content` is what the page would report if it has
been navigated; a never-navigated page yields the blank-page defaults. -/
def getVideoInfo (content : VideoInfoData) (s : ServerState) :
    ToolResult × ServerState × List Ev :=
  match s.page with
  | none =>
    (⟨"Failed to get video info: No browser page available. Please load a video first.",
       true⟩, s, [])
  | some pg =>
    let evs : List Ev := [Ev.notif "info" "Extracting video information...", Ev.evalInfo]
    match pg.navigatedUrl with
    | none => (⟨videoInfoText blankPageInfo "about:blank", false⟩, s, evs)
    | some u => (⟨videoInfoText content u, false⟩, s, evs)

/-- Process-level state: the per-session server instances created by the
POST handler.  Each entry pairs a session id with the closure state of
the `getServer()` instance connected to that session's transport
(source line 404: `const server = getServer()` runs once per new
session). -/
abbrev ProcessState : Type := List (String × ServerState)

/-- A new session's entry: a fresh `getServer()` closure with null
browser and page variables. -/
def newSession (sid : String) (p : ProcessState) : ProcessState :=
  p ++ [(sid, initialServerState)]

/-- The server state owned by a session, if that session exists. -/
def lookupSession (sid : String) (p : ProcessState) : Option ServerState :=
  match p with
  | [] => none
  | (k, st) :: rest => if k = sid then some st else lookupSession sid rest

/-- Dispatch a `youtube-screenshot` call to the named session: only that
session's server state is touched. -/
def procShot (sid : String) (a : Args) (w : World) (now : Nat) (cwd : String)
    (p : ProcessState) : ProcessState :=
  p.map (fun e => if e.1 = sid then (e.1, (runShot a w e.2 now cwd).2.1) else e)

/-- Number of live browser handles in the whole process: one per session
whose server instance currently holds a non-null browser variable. -/
def processBrowserHandles (p : ProcessState) : Nat :=
  (p.filter (fun e => e.2.browser.isSome)).length

/-- Number of live page handles in the whole process. -/
def processPageHandles (p : ProcessState) : Nat :=
  (p.filter (fun e => e.2.page.isSome)).length

/-- The JSON error envelope produced by the POST handler's reject branch
(source lines 411-418). -/
structure ErrBody where
  jsonrpc : String
  code : Int
  message : String
  idIsNull : Bool
deriving DecidableEq

/-- The exact 400 body of the POST handler (source lines 411-418). -/
def badSessionBody : ErrBody :=
  ⟨"2.0", -32000, "Bad Request: No valid session ID provided", true⟩

/-- Classification outcome of one POST request. -/
inductive PostOutcome
  | handled (sid : String)
  | created (sid : String)
  | badRequest (status : Nat) (body : ErrBody)
deriving DecidableEq

/-- The session-dispatch logic of `mcpPostHandler` (source lines
372-423).  `header` is `req.headers["mcp-session-id"]` (`none` when the
header is missing); JavaScript truthiness makes an empty-string header
falsy in both branch conditions.  `isInit` is `isInitializeRequest(req.body)`
and `nsid` the UUID the generator would mint.  Returns the outcome and
the updated transports map (a session id list). -/
def mcpPost (transports : List String) (header : Option String) (isInit : Bool)
    (nsid : String) : PostOutcome × List String :=
  let truthy : Bool := match header with
    | none => false
    | some sid => !(sid == "")
  let known : Bool := match header with
    | none => false
    | some sid => transports.contains sid
  if truthy && known then
    (PostOutcome.handled (match header with | some sid => sid | none => ""), transports)
  else if !truthy && isInit then
    (PostOutcome.created nsid, transports ++ [nsid])
  else
    (PostOutcome.badRequest 400 badSessionBody, transports)

/-- Modelled from the claim's wording (C6): the trichotomy as the spec
states it, with "present" read literally as the header existing at all.
Used only to compare against `mcpPost`. -/
def claimClassify (transports : List String) (header : Option String)
    (isInit : Bool) (nsid : String) : PostOutcome :=
  match header with
  | some sid =>
    if transports.contains sid then PostOutcome.handled sid
    else PostOutcome.badRequest 400 badSessionBody
  | none =>
    if isInit then PostOutcome.created nsid
    else PostOutcome.badRequest 400 badSessionBody

/-- An empty-string header is treated by the code as absent (JavaScript
truthiness); this normalization states the amended reading of C6. -/
def effectiveHeader (header : Option String) : Option String :=
  match header with
  | some sid => if sid = "" then none else some sid
  | none => none

/-- A world in which every external operation succeeds and the written
artifact stats at 2048 bytes. -/
def wAllOk : World :=
  ⟨true, true, true, true, ⟨true, true, true, true, true⟩, true, true, true, some 2048⟩

/-- A sample argument record with an explicit output path. -/
def argsEx : Args := ⟨"https://youtu.be/x?t=83", some "shot.png", 3000, Quality.hd1080⟩

/-- C4: `cleanup` closes the page handle first and the browser handle
second, resets both to absent, and the `cleanup-browser` tool is
idempotent: with no handles it is a no-op reporting success, and a second
invocation returns the same result and state as the first. -/
theorem cleanup_page_then_browser_idempotent :
    (∀ s, (cleanup true true s).2.1 = { s with page := none, browser := none }
      ∧ (∀ b pg, s.page = some pg → s.browser = some b →
          (cleanup true true s).2.2 = [Ev.closePage pg.handle, Ev.closeBrowser b]))
  ∧ (∀ pc bc s, s.browser = none → s.page = none →
      cleanupTool pc bc s =
        (⟨"Browser resources cleaned up successfully", false⟩, s,
          [Ev.notif "info" "Cleaning up browser resources..."]))
  ∧ (∀ pc bc s,
      (cleanupTool pc bc ((cleanupTool pc bc s).2.1)).1 = (cleanupTool pc bc s).1
      ∧ (cleanupTool pc bc ((cleanupTool pc bc s).2.1)).2.1 = (cleanupTool pc bc s).2.1) := by
  refine ⟨?_, ?_, ?_⟩
  · intro s
    rcases s with ⟨sb, sp, sn⟩
    constructor
    · cases sb <;> cases sp <;> simp [cleanup]
    · intro b pg hp hb
      cases sb <;> cases sp <;> simp_all [cleanup]
  · intro pc bc s hb hp
    rcases s with ⟨sb, sp, sn⟩
    simp only at hb hp
    subst hb; subst hp
    simp [cleanupTool, cleanup]
  · intro pc bc s
    rcases s with ⟨sb, sp, sn⟩
    cases sb <;> cases sp <;> cases pc <;> cases bc <;>
      simp [cleanupTool, cleanup]

/-- Witness for C4 at concrete inputs: a state holding page handle 1 and
browser handle 0 is fully reset with the page closed first, and the tool
succeeds on an empty state. -/
theorem cleanup_page_then_browser_idempotent_witness :
    (cleanup true true ⟨some 0, some ⟨1, none⟩, 2⟩).2.1 = ⟨none, none, 2⟩
  ∧ (cleanup true true ⟨some 0, some ⟨1, none⟩, 2⟩).2.2 = [Ev.closePage 1, Ev.closeBrowser 0]
  ∧ cleanupTool true true initialServerState =
      (⟨"Browser resources cleaned up successfully", false⟩, initialServerState,
        [Ev.notif "info" "Cleaning up browser resources..."]) :=
  ⟨(cleanup_page_then_browser_idempotent.1 ⟨some 0, some ⟨1, none⟩, 2⟩).1,
   (cleanup_page_then_browser_idempotent.1 ⟨some 0, some ⟨1, none⟩, 2⟩).2 0 ⟨1, none⟩ rfl rfl,
   cleanup_page_then_browser_idempotent.2.1 true true initialServerState rfl rfl⟩

/-- An event is an admissible quality selection for tier `q`: any
non-selection event, or a selection of the tier's target label or of the
automatic entry. -/
def selectionOk (q : Quality) : Ev → Bool
  | Ev.select l => l == qualityMap q || l == "Auto"
  | _ => true

/-- Changing only the negotiation oracle changes neither the result nor
the final browser state of a `youtube-screenshot` call (negotiation
feeds only the event trace). -/
theorem runShot_result_neg (a : Args) (l np g wv vp es ps : Bool) (st : Option Nat)
    (n n' : NegWorld) (s : ServerState) (now : Nat) (cwd : String) :
    (runShot a ⟨l, np, g, wv, n, vp, es, ps, st⟩ s now cwd).1 =
      (runShot a ⟨l, np, g, wv, n', vp, es, ps, st⟩ s now cwd).1
    ∧ (runShot a ⟨l, np, g, wv, n, vp, es, ps, st⟩ s now cwd).2.1 =
      (runShot a ⟨l, np, g, wv, n', vp, es, ps, st⟩ s now cwd).2.1 := by
  rcases h1 : initBrowser ⟨l, np, g, wv, n, vp, es, ps, st⟩ s with ⟨r1, s1, e1⟩
  have h2 : initBrowser ⟨l, np, g, wv, n', vp, es, ps, st⟩ s = (r1, s1, e1) := h1
  obtain ⟨sb, sp, sn⟩ := s1
  unfold runShot
  rw [h1, h2]
  cases r1 with
  | error e => exact ⟨rfl, rfl⟩
  | ok u =>
    cases sp with
    | none => exact ⟨rfl, rfl⟩
    | some pg =>
      cases g with
      | false => exact ⟨rfl, rfl⟩
      | true =>
        cases wv with
        | false => exact ⟨rfl, rfl⟩
        | true =>
          have h3 : capturePhase a ⟨l, np, true, true, n', vp, es, ps, st⟩ now cwd =
              capturePhase a ⟨l, np, true, true, n, vp, es, ps, st⟩ now cwd := rfl
          rw [h3]
          rcases hc : capturePhase a ⟨l, np, true, true, n, vp, es, ps, st⟩ now cwd
            with ⟨rc, e4⟩
          cases rc <;> exact ⟨rfl, rfl⟩

/-- C2: quality negotiation only ever selects the tier's target label or
the automatic entry; when the exact entry is unavailable the automatic
entry is selected instead; and no negotiation failure ever changes the
result or the browser state of the enclosing `youtube-screenshot` call
(no error propagates past the negotiation boundary). -/
theorem negotiation_never_aborts :
    (∀ q n, (negotiate q n).all (selectionOk q) = true)
  ∧ (∀ q d, Ev.select "Auto" ∈ negotiate q ⟨true, true, false, true, d⟩)
  ∧ (∀ (a : Args) (w : World) (s : ServerState) (now : Nat) (cwd : String)
        (n n' : NegWorld),
      (runShot a { w with neg := n } s now cwd).1 =
        (runShot a { w with neg := n' } s now cwd).1
      ∧ (runShot a { w with neg := n } s now cwd).2.1 =
        (runShot a { w with neg := n' } s now cwd).2.1) := by
  refine ⟨?_, ?_, ?_⟩
  · intro q n
    rcases n with ⟨n1, n2, n3, n4, n5⟩
    cases q <;> cases n1 <;> cases n2 <;> cases n3 <;> cases n4 <;> cases n5 <;> decide
  · intro q d
    cases q <;> cases d <;> decide
  · intro a w s now cwd n n'
    obtain ⟨l, np, g, wv, ng, vp, es, ps, st⟩ := w
    exact runShot_result_neg a l np g wv vp es ps st n n' s now cwd

/-- C6 counterexample: a present-but-empty `mcp-session-id` header with a
valid initialize body is treated by the code as an absent header
(JavaScript truthiness), so a new session is created, whereas the
claim's trichotomy puts this "other combination" in the 400 branch. -/
theorem mcpPost_empty_header_counterexample :
    (mcpPost [] (some "") true "s1").1 = PostOutcome.created "s1"
  ∧ claimClassify [] (some "") true "s1" = PostOutcome.badRequest 400 badSessionBody
  ∧ (mcpPost [] (some "") true "s1").1 ≠ claimClassify [] (some "") true "s1" := by
  decide

/-- C6 (amended): the POST handler classifies requests exactly as the
claim states once a present-but-empty session-id header is read as
absent: known non-empty identifier means the request is processed on
that transport, absent (or empty) identifier with an initialize body
creates a session, and every other combination gets the exact 400 JSON
body with the transports map untouched. -/
theorem mcpPost_classification :
    ∀ (ts : List String) (h : Option String) (init : Bool) (nsid : String),
      (mcpPost ts h init nsid).1 = claimClassify ts (effectiveHeader h) init nsid
    ∧ (mcpPost ts h init nsid).2 =
        (match (mcpPost ts h init nsid).1 with
          | PostOutcome.created _ => ts ++ [nsid]
          | _ => ts) := by
  intro ts h init nsid
  cases h with
  | none => cases init <;> simp [mcpPost, claimClassify, effectiveHeader]
  | some sid =>
    by_cases hs : sid = ""
    · subst hs
      cases init <;> simp [mcpPost, claimClassify, effectiveHeader]
    · by_cases hc : sid ∈ ts
      · simp [mcpPost, claimClassify, effectiveHeader, hs, hc]
      · cases init <;>
          simp [mcpPost, claimClassify, effectiveHeader, hs, hc]

/-- A world in which navigation (`page.goto`) fails but everything else
succeeds: the browser and page are created, yet the page is never
navigated. -/
def wGotoFail : World :=
  ⟨true, true, false, true, ⟨true, true, true, true, true⟩, true, true, true, some 2048⟩

/-- The server state after a `youtube-screenshot` call whose navigation
failed: a live browser (handle 0) and a live page (handle 1) that was
never navigated. -/
def stateAfterGotoFail : ServerState :=
  (runShot argsEx wGotoFail initialServerState 0 "/w").2.1

/-- C3 counterexample: after a failed navigation the page handle exists
but was never navigated, and `get-video-info` nevertheless succeeds
(returning defaulted metadata) instead of failing with the precondition
error — the code checks only handle presence, not navigation. -/
theorem getVideoInfo_unnavigated_counterexample :
    stateAfterGotoFail.page = some ⟨1, none⟩
  ∧ (getVideoInfo blankPageInfo stateAfterGotoFail).1.isError = false
  ∧ (getVideoInfo blankPageInfo stateAfterGotoFail).1.text ≠
      "Failed to get video info: No browser page available. Please load a video first." := by
  decide

/-- C3 (amended): `get-video-info` fails with the documented precondition
error exactly when no page handle exists, in which case it touches
nothing (no browser launched, no page opened, state unchanged, no
actions); whenever a page handle exists — even one never navigated — it
returns a non-error result and leaves the state unchanged. -/
theorem getVideoInfo_precondition :
    (∀ (content : VideoInfoData) (s : ServerState), s.page = none →
      getVideoInfo content s =
        (⟨"Failed to get video info: No browser page available. Please load a video first.",
           true⟩, s, []))
  ∧ (∀ (content : VideoInfoData) (s : ServerState) (pg : PageState), s.page = some pg →
      (getVideoInfo content s).1.isError = false ∧ (getVideoInfo content s).2.1 = s) := by
  constructor
  · intro content s h
    simp [getVideoInfo, h]
  · intro content s pg h
    cases hn : pg.navigatedUrl <;> simp [getVideoInfo, h, hn]

/-- Witness for C3 (amended) at concrete inputs: an empty state produces
the precondition error untouched, and a state with a page handle yields
a non-error result. -/
theorem getVideoInfo_precondition_witness :
    getVideoInfo blankPageInfo initialServerState =
      (⟨"Failed to get video info: No browser page available. Please load a video first.",
         true⟩, initialServerState, [])
  ∧ (getVideoInfo blankPageInfo ⟨some 0, some ⟨1, none⟩, 2⟩).1.isError = false :=
  ⟨getVideoInfo_precondition.1 blankPageInfo initialServerState rfl,
   (getVideoInfo_precondition.2 blankPageInfo ⟨some 0, some ⟨1, none⟩, 2⟩ ⟨1, none⟩ rfl).1⟩

/-- Two fresh sessions "A" and "B", as the POST handler creates them. -/
def procTwoSessions : ProcessState := newSession "B" (newSession "A" [])

/-- The process after session "A" ran a fully successful
`youtube-screenshot`. -/
def procAfterA : ProcessState := procShot "A" argsEx wAllOk 0 "/w" procTwoSessions

/-- The process after both sessions ran a fully successful
`youtube-screenshot` each. -/
def procAfterAB : ProcessState := procShot "B" argsEx wAllOk 0 "/w" procAfterA

/-- C1 counterexample: browser state is not a process-wide singleton.
After each of two sessions runs one successful `youtube-screenshot`, two
live browser handles and two live page handles exist simultaneously; and
session "A"'s call left session "B"'s state untouched (still no browser),
so the sessions do not operate on a shared pair. -/
theorem browser_not_process_singleton_counterexample :
    processBrowserHandles procAfterAB = 2
  ∧ processPageHandles procAfterAB = 2
  ∧ lookupSession "B" procAfterA = some initialServerState := by
  decide

/-- C1 (amended): browser state is a per-session singleton.  A
`youtube-screenshot` dispatched to one session never changes any other
session's server state, and within one server instance re-entrant
initialization is idempotent: when a browser and page already exist,
`initBrowser` reuses them, performing no action. -/
theorem browser_state_per_session :
    (∀ (sid sid' : String) (a : Args) (w : World) (now : Nat) (cwd : String)
        (p : ProcessState), sid ≠ sid' →
      lookupSession sid' (procShot sid a w now cwd p) = lookupSession sid' p)
  ∧ (∀ (w : World) (s : ServerState) (b : Nat) (pg : PageState),
      s.browser = some b → s.page = some pg →
      initBrowser w s = (Except.ok (), s, [])) := by
  constructor
  · intro sid sid' a w now cwd p hne
    induction p with
    | nil => rfl
    | cons e tl ih =>
      obtain ⟨k, st⟩ := e
      simp only [procShot, List.map_cons] at ih ⊢
      by_cases hk : k = sid
      · subst hk
        rw [if_pos rfl]
        simp only [lookupSession]
        rw [if_neg hne, if_neg hne]
        exact ih
      · rw [if_neg hk]
        simp only [lookupSession]
        by_cases hk2 : k = sid'
        · rw [if_pos hk2, if_pos hk2]
        · rw [if_neg hk2, if_neg hk2]
          exact ih
  · intro w s b pg hb hp
    rcases s with ⟨sb, sp, sn⟩
    simp only at hb hp
    subst hb
    subst hp
    simp [initBrowser]

/-- Witness for C1 (amended) at concrete inputs: session "A"'s call does
not change session "B"'s state, and `initBrowser` on a state that already
holds both handles is the identity with an empty trace. -/
theorem browser_state_per_session_witness :
    lookupSession "B" (procShot "A" argsEx wAllOk 0 "/w" procTwoSessions) =
      lookupSession "B" procTwoSessions
  ∧ initBrowser wAllOk ⟨some 5, some ⟨6, none⟩, 7⟩ =
      (Except.ok (), ⟨some 5, some ⟨6, none⟩, 7⟩, []) :=
  ⟨browser_state_per_session.1 "A" "B" argsEx wAllOk 0 "/w" procTwoSessions (by decide),
   browser_state_per_session.2 wAllOk ⟨some 5, some ⟨6, none⟩, 7⟩ 5 ⟨6, none⟩ rfl rfl⟩

/-- Whether an event closes a handle. -/
def isCloseEv : Ev → Bool
  | Ev.closePage _ => true
  | Ev.closeBrowser _ => true
  | _ => false

/-- Whether an event is a screenshot capture attempt. -/
def isShotEv : Ev → Bool
  | Ev.shotElement _ _ => true
  | Ev.shotViewport _ _ _ => true
  | _ => false

/-- Negotiation performs no screenshot capture. -/
theorem negotiate_filter_shot (q : Quality) (n : NegWorld) :
    (negotiate q n).filter isShotEv = [] := by
  rcases n with ⟨n1, n2, n3, n4, n5⟩
  cases n1 <;> cases n2 <;> cases n3 <;> cases n4 <;> cases n5 <;> rfl

/-- Negotiation closes no handle. -/
theorem negotiate_no_close (q : Quality) (n : NegWorld) :
    (negotiate q n).all (fun e => !(isCloseEv e)) = true := by
  rcases n with ⟨n1, n2, n3, n4, n5⟩
  cases n1 <;> cases n2 <;> cases n3 <;> cases n4 <;> cases n5 <;> rfl

/-- C7: when browser initialization and navigation succeed but the
bounded wait for a `video` element times out, `youtube-screenshot`
returns the propagated error as a tool error result, and the browser and
page handles survive (present in the final state, no close event in the
trace), so a retry is possible. -/
theorem waitVideo_timeout_fatal :
    ∀ (a : Args) (w : World) (s : ServerState) (now : Nat) (cwd : String),
      w.launchOk = true → w.newPageOk = true → w.gotoOk = true →
      w.waitVideoOk = false →
      (runShot a w s now cwd).1 = shotErr "timeout waiting for video selector"
    ∧ (runShot a w s now cwd).1.isError = true
    ∧ (runShot a w s now cwd).2.1.browser.isSome = true
    ∧ (runShot a w s now cwd).2.1.page.isSome = true
    ∧ (runShot a w s now cwd).2.2.all (fun e => !(isCloseEv e)) = true := by
  intro a w s now cwd h1 h2 h3 h4
  obtain ⟨l, np, g, wv, ng, vp, es, ps, st⟩ := w
  dsimp only at h1 h2 h3 h4
  subst h1; subst h2; subst h3; subst h4
  obtain ⟨sb, sp, sn⟩ := s
  cases sb <;> cases sp <;>
    simp [runShot, initBrowser, shotErr, errNotif, isCloseEv]

/-- A world in which the wait for the `video` selector times out but
everything before it succeeds. -/
def wWaitVideoFail : World :=
  ⟨true, true, true, false, ⟨true, true, true, true, true⟩, true, true, true, some 2048⟩

/-- Witness for C7 at concrete inputs: the timed-out wait yields an
error result while both handles survive. -/
theorem waitVideo_timeout_fatal_witness :
    (runShot argsEx wWaitVideoFail initialServerState 0 "/w").1 =
      shotErr "timeout waiting for video selector"
  ∧ (runShot argsEx wWaitVideoFail initialServerState 0 "/w").2.1.browser.isSome = true
  ∧ (runShot argsEx wWaitVideoFail initialServerState 0 "/w").2.1.page.isSome = true :=
  ⟨(waitVideo_timeout_fatal argsEx wWaitVideoFail initialServerState 0 "/w"
      rfl rfl rfl rfl).1,
   (waitVideo_timeout_fatal argsEx wWaitVideoFail initialServerState 0 "/w"
      rfl rfl rfl rfl).2.2.1,
   (waitVideo_timeout_fatal argsEx wWaitVideoFail initialServerState 0 "/w"
      rfl rfl rfl rfl).2.2.2.1⟩

/-- C8: after a capture that reported success, `youtube-screenshot`
verifies the artifact with `fs.stat`: when the stat fails (no file was
produced) the call returns a tool error, and when the file exists the
success text reports the resolved absolute path, the size in KB, the
video URL and the quality setting. -/
theorem artifact_verification :
    ∀ (a : Args) (w : World) (s : ServerState) (now : Nat) (cwd : String),
      w.launchOk = true → w.newPageOk = true → w.gotoOk = true →
      w.waitVideoOk = true →
      (if w.videoPresent then w.elemShotOk else w.pageShotOk) = true →
      (w.statSize = none →
        (runShot a w s now cwd).1 =
          shotErr "Screenshot file was not created: stat failed")
    ∧ (∀ size, w.statSize = some size →
        (runShot a w s now cwd).1 =
          ⟨successText (fullOutputPath a now cwd) (roundKB size) a.url a.quality,
            false⟩) := by
  intro a w s now cwd h1 h2 h3 h4 h5
  obtain ⟨l, np, g, wv, ng, vp, es, ps, st⟩ := w
  dsimp only at h1 h2 h3 h4 h5
  subst h1; subst h2; subst h3; subst h4
  obtain ⟨sb, sp, sn⟩ := s
  constructor
  · intro hst
    dsimp only at hst
    subst hst
    cases vp <;> simp only [Bool.false_eq_true, if_neg, if_pos, Bool.if_false_left,
        Bool.if_true_left] at h5 <;> subst h5 <;> cases sb <;> cases sp <;>
      simp [runShot, initBrowser, capturePhase, shotErr]
  · intro size hst
    dsimp only at hst
    subst hst
    cases vp <;> simp only [Bool.false_eq_true, if_neg, if_pos, Bool.if_false_left,
        Bool.if_true_left] at h5 <;> subst h5 <;> cases sb <;> cases sp <;>
      simp [runShot, initBrowser, capturePhase]

/-- A world in which the capture succeeds but `fs.stat` then fails: the
capture claimed success yet produced no file. -/
def wStatFail : World :=
  ⟨true, true, true, true, ⟨true, true, true, true, true⟩, true, true, true, none⟩

/-- Witness for C8 at concrete inputs: a missing artifact yields a tool
error, and an artifact of 2048 bytes yields the success report. -/
theorem artifact_verification_witness :
    (runShot argsEx wStatFail initialServerState 0 "/w").1 =
      shotErr "Screenshot file was not created: stat failed"
  ∧ (runShot argsEx wAllOk initialServerState 0 "/w").1 =
      ⟨successText (fullOutputPath argsEx 0 "/w") (roundKB 2048) argsEx.url
         argsEx.quality, false⟩ :=
  ⟨(artifact_verification argsEx wStatFail initialServerState 0 "/w"
      rfl rfl rfl rfl rfl).1 rfl,
   (artifact_verification argsEx wAllOk initialServerState 0 "/w"
      rfl rfl rfl rfl rfl).2 2048 rfl⟩

/-- C9: capture is a two-tier policy, each tier attempted at most once:
with a video element present exactly one element-region capture is
attempted (and no viewport capture), without one exactly one viewport
capture with full-page disabled; both write PNG to the resolved output
path. -/
theorem capture_two_tier :
    ∀ (a : Args) (w : World) (s : ServerState) (now : Nat) (cwd : String),
      w.launchOk = true → w.newPageOk = true → w.gotoOk = true →
      w.waitVideoOk = true →
      (w.videoPresent = true →
        (runShot a w s now cwd).2.2.filter isShotEv =
          [Ev.shotElement (fullOutputPath a now cwd) "png"])
    ∧ (w.videoPresent = false →
        (runShot a w s now cwd).2.2.filter isShotEv =
          [Ev.shotViewport (fullOutputPath a now cwd) "png" false]) := by
  intro a w s now cwd h1 h2 h3 h4
  obtain ⟨l, np, g, wv, ng, vp, es, ps, st⟩ := w
  dsimp only at h1 h2 h3 h4
  subst h1; subst h2; subst h3; subst h4
  obtain ⟨sb, sp, sn⟩ := s
  constructor
  · intro hvp
    dsimp only at hvp
    subst hvp
    cases es <;> cases st <;> cases sb <;> cases sp <;>
      simp [runShot, initBrowser, capturePhase, List.filter_append,
        negotiate_filter_shot, isShotEv, errNotif]
  · intro hvp
    dsimp only at hvp
    subst hvp
    cases ps <;> cases st <;> cases sb <;> cases sp <;>
      simp [runShot, initBrowser, capturePhase, List.filter_append,
        negotiate_filter_shot, isShotEv, errNotif]

/-- Witness for C9 at concrete inputs: with a video element the sole
capture attempt is the element region; without one it is the viewport
with full-page capture disabled. -/
theorem capture_two_tier_witness :
    (runShot argsEx wAllOk initialServerState 0 "/w").2.2.filter isShotEv =
      [Ev.shotElement (fullOutputPath argsEx 0 "/w") "png"]
  ∧ (runShot argsEx { wAllOk with videoPresent := false } initialServerState 0
        "/w").2.2.filter isShotEv =
      [Ev.shotViewport (fullOutputPath argsEx 0 "/w") "png" false] :=
  ⟨(capture_two_tier argsEx wAllOk initialServerState 0 "/w" rfl rfl rfl rfl).1 rfl,
   (capture_two_tier argsEx { wAllOk with videoPresent := false } initialServerState
      0 "/w" rfl rfl rfl rfl).2 rfl⟩

/-- Every `youtube-screenshot` result is either an error result or the
success text built from the resolved output path, some KB size, the
requested URL and the requested quality. -/
theorem runShot_result_shape :
    ∀ (a : Args) (w : World) (s : ServerState) (now : Nat) (cwd : String),
      (runShot a w s now cwd).1.isError = true
    ∨ ∃ k, (runShot a w s now cwd).1 =
        ⟨successText (fullOutputPath a now cwd) k a.url a.quality, false⟩ := by
  intro a w s now cwd
  obtain ⟨l, np, g, wv, ng, vp, es, ps, st⟩ := w
  obtain ⟨sb, sp, sn⟩ := s
  cases l <;> cases np <;> cases g <;> cases wv <;> cases vp <;> cases es <;>
    cases ps <;> cases st <;> cases sb <;> cases sp <;>
    first
      | exact Or.inl rfl
      | (rename_i size _ _; exact Or.inr ⟨roundKB size, rfl⟩)
      | (rename_i size _; exact Or.inr ⟨roundKB size, rfl⟩)
      | (rename_i size; exact Or.inr ⟨roundKB size, rfl⟩)

/-- C10: a successful `youtube-screenshot` reports in its result text
exactly the quality tier the caller requested (defaulted to `highest`),
independent of what quality negotiation actually achieved. -/
theorem reported_quality_is_requested :
    ∀ (a : Args) (w : World) (s : ServerState) (now : Nat) (cwd : String),
      (runShot a w s now cwd).1.isError = false →
      ∃ k, (runShot a w s now cwd).1.text =
        successText (fullOutputPath a now cwd) k a.url a.quality := by
  intro a w s now cwd h
  rcases runShot_result_shape a w s now cwd with hE | ⟨k, hS⟩
  · rw [hE] at h
    cases h
  · exact ⟨k, by rw [hS]⟩

/-- Witness for C10 at concrete inputs: the fully successful call is not
an error and reports the requested `hd1080` tier. -/
theorem reported_quality_is_requested_witness :
    (runShot argsEx wAllOk initialServerState 0 "/w").1.isError = false
  ∧ ∃ k, (runShot argsEx wAllOk initialServerState 0 "/w").1.text =
      successText (fullOutputPath argsEx 0 "/w") k argsEx.url argsEx.quality :=
  ⟨rfl, reported_quality_is_requested argsEx wAllOk initialServerState 0 "/w" rfl⟩

/-- A sanitized character is never a colon and never a dot. -/
theorem sanitizeChar_ne_colon_dot (c : Char) :
    sanitizeChar c ≠ ':' ∧ sanitizeChar c ≠ '.' := by
  unfold sanitizeChar
  by_cases h : (c == ':' || c == '.') = true
  · rw [if_pos h]
    exact ⟨by decide, by decide⟩
  · rw [if_neg h]
    simp only [Bool.or_eq_true, beq_iff_eq] at h
    push_neg at h
    exact ⟨h.1, h.2⟩

/-- No colon and no dot survives sanitization. -/
theorem sanitize_no_colon_dot (l : List Char) :
    ':' ∉ sanitize l ∧ '.' ∉ sanitize l := by
  constructor <;>
  · intro hm
    rcases List.mem_map.mp hm with ⟨c, _, hc⟩
    first
      | exact (sanitizeChar_ne_colon_dot c).1 hc
      | exact (sanitizeChar_ne_colon_dot c).2 hc

/-- Sanitized digits stay distinct digits. -/
theorem sanitizeChar_digitChar_inj (a b : Nat) (ha : a < 10) (hb : b < 10)
    (h : sanitizeChar (digitChar a) = sanitizeChar (digitChar b)) : a = b := by
  interval_cases a <;> interval_cases b <;> revert h <;> decide

set_option maxHeartbeats 1000000 in
/-- The sanitized time-of-day rendering is injective below one day. -/
theorem sanitized_time_inj (x y : Nat) (hx : x < 86400000) (hy : y < 86400000)
    (h : sanitize (timeChars x) = sanitize (timeChars y)) : x = y := by
  simp only [timeChars, pad2, pad3, sanitize, List.map_append, List.map_cons,
    List.map_nil, List.cons_append, List.nil_append, List.cons.injEq,
    List.append_cancel_left_eq] at h
  obtain ⟨d1, d2, -, d3, d4, -, d5, d6, -, d7, d8, d9, -⟩ := h
  have e1 := sanitizeChar_digitChar_inj _ _ (Nat.mod_lt _ (by decide))
    (Nat.mod_lt _ (by decide)) d1
  have e2 := sanitizeChar_digitChar_inj _ _ (Nat.mod_lt _ (by decide))
    (Nat.mod_lt _ (by decide)) d2
  have e3 := sanitizeChar_digitChar_inj _ _ (Nat.mod_lt _ (by decide))
    (Nat.mod_lt _ (by decide)) d3
  have e4 := sanitizeChar_digitChar_inj _ _ (Nat.mod_lt _ (by decide))
    (Nat.mod_lt _ (by decide)) d4
  have e5 := sanitizeChar_digitChar_inj _ _ (Nat.mod_lt _ (by decide))
    (Nat.mod_lt _ (by decide)) d5
  have e6 := sanitizeChar_digitChar_inj _ _ (Nat.mod_lt _ (by decide))
    (Nat.mod_lt _ (by decide)) d6
  have e7 := sanitizeChar_digitChar_inj _ _ (Nat.mod_lt _ (by decide))
    (Nat.mod_lt _ (by decide)) d7
  have e8 := sanitizeChar_digitChar_inj _ _ (Nat.mod_lt _ (by decide))
    (Nat.mod_lt _ (by decide)) d8
  have e9 := sanitizeChar_digitChar_inj _ _ (Nat.mod_lt _ (by decide))
    (Nat.mod_lt _ (by decide)) d9
  omega

/-- Filenames generated one millisecond apart differ. -/
theorem defaultFilename_succ_ne (t : Nat) :
    defaultFilename t ≠ defaultFilename (t + 1) := by
  intro h
  have hd : "youtube-screenshot-".data ++ sanitize (isoChars t) ++ ".png".data =
      "youtube-screenshot-".data ++ sanitize (isoChars (t + 1)) ++ ".png".data :=
    congrArg String.data h
  rw [List.append_assoc, List.append_assoc] at hd
  have h2 := List.append_cancel_left hd
  have h3 := List.append_cancel_right h2
  have hTZ : sanitizeChar 'T' = 'T' := by decide
  have hZZ : sanitizeChar 'Z' = 'Z' := by decide
  simp only [isoChars, sanitize, List.map_append, List.map_cons, List.map_nil,
    hTZ, hZZ] at h3
  have hlen : ∀ u : Nat,
      ('T' :: (List.map sanitizeChar (timeChars u) ++ ['Z'])).length = 14 := by
    intro u
    simp [timeChars, pad2, pad3]
  have h4 := (List.append_inj' h3 (by rw [hlen, hlen])).2
  have h5 : List.map sanitizeChar (timeChars (t % 86400000)) ++ ['Z'] =
      List.map sanitizeChar (timeChars ((t + 1) % 86400000)) ++ ['Z'] := by
    injection h4
  have h6 := List.append_cancel_right h5
  have h7 := sanitized_time_inj (t % 86400000) ((t + 1) % 86400000)
    (Nat.mod_lt _ (by omega)) (Nat.mod_lt _ (by omega)) h6
  omega

/-- A generated default filename is a relative path. -/
theorem defaultFilename_not_abs (t : Nat) :
    isAbsolutePath (defaultFilename t) = false := rfl

/-- C5: the default output path is `youtube-screenshot-` followed by the
sanitized ISO-8601 capture timestamp and `.png`; the generated name
contains no colon and no dot outside the extension, resolving it against
an absolute working directory yields an absolute path, and timestamps
one millisecond apart always yield distinct resolved paths. -/
theorem default_output_path_spec :
    (∀ t : Nat, ∃ stem : List Char,
        (defaultFilename t).data = stem ++ ('.' :: "png".data)
      ∧ ':' ∉ stem ∧ '.' ∉ stem)
  ∧ (∀ (t : Nat) (cwd : String), isAbsolutePath cwd = true →
      isAbsolutePath (resolvePath cwd (defaultFilename t)) = true)
  ∧ (∀ (t : Nat) (cwd : String),
      resolvePath cwd (defaultFilename t) ≠ resolvePath cwd (defaultFilename (t + 1))) := by
  refine ⟨?_, ?_, ?_⟩
  · intro t
    refine ⟨"youtube-screenshot-".data ++ sanitize (isoChars t), rfl, ?_, ?_⟩ <;>
    · intro hm
      rcases List.mem_append.mp hm with hm1 | hm2
      · revert hm1
        decide
      · first
          | exact (sanitize_no_colon_dot (isoChars t)).1 hm2
          | exact (sanitize_no_colon_dot (isoChars t)).2 hm2
  · intro t cwd habs
    unfold resolvePath
    rw [defaultFilename_not_abs]
    simp only [Bool.false_eq_true, if_false]
    cases hc : cwd.data with
    | nil => simp [isAbsolutePath, hc] at habs
    | cons c cs =>
      simp only [isAbsolutePath, hc] at habs
      have hdata : (cwd ++ "/" ++ defaultFilename t).data =
          c :: (cs ++ "/".data ++ (defaultFilename t).data) := by
        rw [String.data_append, String.data_append, hc]
        simp [List.append_assoc]
      simp only [isAbsolutePath, hdata]
      exact habs
  · intro t cwd h
    unfold resolvePath at h
    rw [defaultFilename_not_abs, defaultFilename_not_abs] at h
    simp only [Bool.false_eq_true, if_false] at h
    have hdata := congrArg String.data h
    rw [String.data_append, String.data_append, String.data_append,
      String.data_append] at hdata
    have hdata2 : cwd.data ++ ("/".data ++ (defaultFilename t).data) =
        cwd.data ++ ("/".data ++ (defaultFilename (t + 1)).data) := by
      rw [← List.append_assoc, ← List.append_assoc]
      exact hdata
    have h2 := List.append_cancel_left (List.append_cancel_left hdata2)
    exact defaultFilename_succ_ne t (String.ext h2)

/-- Witness for C5 at a concrete input: resolving the epoch-zero default
filename against the absolute directory `/w` yields an absolute path. -/
theorem default_output_path_spec_witness :
    isAbsolutePath "/w" = true
  ∧ isAbsolutePath (resolvePath "/w" (defaultFilename 0)) = true :=
  ⟨rfl, default_output_path_spec.2.1 0 "/w" rfl⟩
